import Mathlib

/-!
Shallow embedding of the protocol encoding/decoding layer of
`nexstar_control/device.py` (Celestron NexStar hand-control driver).

Conventions of the embedding:
* Raw bytes on the wire are modelled as `ℕ` (each in `[0,255]`); Python's
  `bytes([...])` constructor, which raises `ValueError` when an element is
  outside `[0,255]`, is modelled by `mkBytes` over `ℤ`.
* Python `int` arithmetic is `ℤ`; Python float arithmetic on degree values is
  modelled exactly over `ℚ` (the formulas in the source are exact rational
  expressions); Python `//`/`%` on integers is floor division, which matches
  `/`/`%` on `ℤ` here; Python `int(x)` truncates toward zero (`Int.tdiv`);
  Python `round` rounds half to even (`pyRound`).
* Python `assert` failures and raised exceptions are modelled as `Except Err`
  with the error taxonomy of the specification (`OutOfRange`,
  `MalformedResponse`, `InvalidEnumValue`) plus `valueError` for Python's
  builtin `ValueError` (e.g. out-of-range byte in `bytes([...])`, bad enum
  code, bad hex literal).
* The serial transport is an external collaborator: an operation is modelled
  as a function of the response bytes the device would return for each query
  it makes (already stripped of the `#` terminator, as `query` does), and it
  returns the byte frames it sent plus a `Bool` flag recording whether the
  "Expected an empty response!" warning was logged.
-/

/-- Error taxonomy of the spec plus Python's builtin `ValueError`. -/
inductive Err
  | outOfRange
  | malformedResponse
  | invalidEnumValue
  | valueError
  deriving DecidableEq

/-- Python's `bytes([...])` constructor: each element must be in `[0, 255]`,
otherwise `ValueError` is raised. -/
def mkBytes : List ℤ → Except Err (List ℤ)
  | [] => .ok []
  | b :: bs =>
    if 0 ≤ b ∧ b ≤ 255 then
      match mkBytes bs with
      | .ok rest => .ok (b :: rest)
      | .error e => .error e
    else .error .valueError

theorem mkBytes_ok (l : List ℤ) (h : ∀ b ∈ l, 0 ≤ b ∧ b ≤ 255) :
    mkBytes l = .ok l := by
  induction l with
  | nil => rfl
  | cons b bs ih =>
    have hb := h b (by simp)
    have hrest : mkBytes bs = .ok bs := ih (fun x hx => h x (by simp [hx]))
    simp [mkBytes, hb, hrest]

/-- Embedding of `NexStarHandControl._handle_variable_slew_rate` from
`device.py`: direction plus high/low rate bytes for a variable slew rate.
The guard models the `assert -16384 <= rate <= 16384`. -/
def handle_variable_slew_rate (rate : ℤ) : Except Err (ℤ × ℤ × ℤ) :=
  if -16384 ≤ rate ∧ rate ≤ 16384 then
    let direction : ℤ := if rate < 0 then 7 else 6
    let r : ℤ := if rate < 0 then (rate.natAbs : ℤ) else rate
    .ok (direction, r * 4 / 256, r * 4 % 256)
  else
    .error .outOfRange

theorem handle_variable_slew_rate_ok (rate : ℤ)
    (h1 : -16384 ≤ rate) (h2 : rate ≤ 16384) :
    handle_variable_slew_rate rate =
      .ok ((if 0 ≤ rate then 6 else 7), |rate| * 4 / 256, |rate| * 4 % 256) := by
  have habs : ((rate.natAbs : ℤ)) = |rate| := (Int.abs_eq_natAbs rate).symm
  by_cases hneg : rate < 0
  · simp [handle_variable_slew_rate, h1, h2, hneg, not_le.mpr hneg, habs]
  · have h0 : 0 ≤ rate := not_lt.mp hneg
    simp [handle_variable_slew_rate, h1, h2, hneg, h0, abs_of_nonneg h0]

/-- C1: `_handle_variable_slew_rate` returns direction `6`/`7` by the sign of
the rate, splits `|rate|*4` into high and low bytes by `//256` and `%256`, with
the documented concrete values, and fails with `OutOfRange` outside
`[-16384, 16384]`. -/
theorem C1_variable_slew_rate :
    (∀ rate : ℤ, -16384 ≤ rate → rate ≤ 16384 →
      handle_variable_slew_rate rate =
        .ok ((if 0 ≤ rate then 6 else 7), |rate| * 4 / 256, |rate| * 4 % 256)) ∧
    handle_variable_slew_rate 1000 = .ok (6, 15, 160) ∧
    handle_variable_slew_rate (-1000) = .ok (7, 15, 160) ∧
    handle_variable_slew_rate 16384 = .ok (6, 256, 0) ∧
    (∀ rate : ℤ, ¬(-16384 ≤ rate ∧ rate ≤ 16384) →
      handle_variable_slew_rate rate = .error .outOfRange) := by
  refine ⟨handle_variable_slew_rate_ok, rfl, rfl, rfl, ?_⟩
  intro rate h
  simp [handle_variable_slew_rate, h]

/-- Witness for C1 at the concrete rate `2000`. -/
theorem C1_witness :
    (-16384 ≤ (2000 : ℤ) ∧ (2000 : ℤ) ≤ 16384) ∧
    handle_variable_slew_rate 2000 =
      .ok ((if 0 ≤ (2000 : ℤ) then 6 else 7),
        |(2000 : ℤ)| * 4 / 256, |(2000 : ℤ)| * 4 % 256) :=
  ⟨⟨by decide, by decide⟩, C1_variable_slew_rate.1 2000 (by decide) (by decide)⟩

/-- Embedding of `NexStarHandControl.slew_azm_variable`: sends the frame
`bytes([ord("P"), 3, 16, direction, rate_high, rate_low, 0, 0])` and logs a
warning when the response is non-empty. `resp` is the device's (stripped)
response to the query; the returned `Bool` records the warning. -/
def slew_azm_variable (rate : ℤ) (resp : List ℕ) : Except Err (List ℤ × Bool) :=
  (handle_variable_slew_rate rate).bind fun dhl =>
    (mkBytes [80, 3, 16, dhl.1, dhl.2.1, dhl.2.2, 0, 0]).bind fun cmd =>
      .ok (cmd, resp.length != 0)

/-- Embedding of `NexStarHandControl.slew_alt_variable` (axis id 17). -/
def slew_alt_variable (rate : ℤ) (resp : List ℕ) : Except Err (List ℤ × Bool) :=
  (handle_variable_slew_rate rate).bind fun dhl =>
    (mkBytes [80, 3, 17, dhl.1, dhl.2.1, dhl.2.2, 0, 0]).bind fun cmd =>
      .ok (cmd, resp.length != 0)

theorem slew_frame_fields_bounds (axis rate : ℤ) (ha0 : 0 ≤ axis) (ha1 : axis ≤ 255)
    (h1 : -16383 ≤ rate) (h2 : rate ≤ 16383) :
    ∀ b ∈ [(80:ℤ), 3, axis, (if 0 ≤ rate then (6:ℤ) else 7),
      |rate| * 4 / 256, |rate| * 4 % 256, 0, 0], 0 ≤ b ∧ b ≤ 255 := by
  have habs0 : 0 ≤ |rate| := abs_nonneg rate
  have habs : |rate| ≤ 16383 := abs_le.mpr ⟨h1, h2⟩
  intro b hb2
  simp only [List.mem_cons, List.not_mem_nil, or_false] at hb2
  rcases hb2 with h | h | h | h | h | h | h | h <;> subst h
  · exact ⟨by norm_num, by norm_num⟩
  · exact ⟨by norm_num, by norm_num⟩
  · exact ⟨ha0, ha1⟩
  · split <;> norm_num
  · constructor <;> omega
  · constructor <;> omega
  · exact ⟨by norm_num, by norm_num⟩
  · exact ⟨by norm_num, by norm_num⟩

theorem slew_azm_variable_eq (rate : ℤ) (resp : List ℕ)
    (h1 : -16383 ≤ rate) (h2 : rate ≤ 16383) :
    slew_azm_variable rate resp =
      .ok ([80, 3, 16, (if 0 ≤ rate then 6 else 7),
        |rate| * 4 / 256, |rate| * 4 % 256, 0, 0], resp.length != 0) := by
  rw [slew_azm_variable,
    handle_variable_slew_rate_ok rate (by linarith) (by linarith)]
  show (mkBytes [80, 3, 16, (if 0 ≤ rate then (6:ℤ) else 7),
      |rate| * 4 / 256, |rate| * 4 % 256, 0, 0]).bind
      (fun cmd => Except.ok (cmd, resp.length != 0)) = _
  rw [mkBytes_ok _ (slew_frame_fields_bounds 16 rate (by norm_num) (by norm_num) h1 h2)]
  rfl

theorem slew_alt_variable_eq (rate : ℤ) (resp : List ℕ)
    (h1 : -16383 ≤ rate) (h2 : rate ≤ 16383) :
    slew_alt_variable rate resp =
      .ok ([80, 3, 17, (if 0 ≤ rate then 6 else 7),
        |rate| * 4 / 256, |rate| * 4 % 256, 0, 0], resp.length != 0) := by
  rw [slew_alt_variable,
    handle_variable_slew_rate_ok rate (by linarith) (by linarith)]
  show (mkBytes [80, 3, 17, (if 0 ≤ rate then (6:ℤ) else 7),
      |rate| * 4 / 256, |rate| * 4 % 256, 0, 0]).bind
      (fun cmd => Except.ok (cmd, resp.length != 0)) = _
  rw [mkBytes_ok _ (slew_frame_fields_bounds 17 rate (by norm_num) (by norm_num) h1 h2)]
  rfl

/-- C2 counterexample: the rate `16384` is inside the claimed range
`[-16384, 16384]`, yet `slew_azm_variable 16384` does not send a frame — the
byte construction fails because `rate_high = 16384*4/256 = 256` is not a valid
byte (Python `bytes([...])` raises `ValueError`). -/
theorem C2_counterexample :
    (-16384 ≤ (16384 : ℤ) ∧ (16384 : ℤ) ≤ 16384) ∧
    slew_azm_variable 16384 [] = .error .valueError ∧
    slew_alt_variable (-16384) [] = .error .valueError :=
  ⟨⟨by decide, by decide⟩, rfl, rfl⟩

/-- C2 (amended): for every integer rate with `-16383 ≤ rate ≤ 16383`,
`slew_azm_variable` (axis 16) and `slew_alt_variable` (axis 17) succeed and
send exactly the 8-byte frame `[0x50, 3, axis_id, direction, rate_high,
rate_low, 0, 0]`, each field a valid byte in `[0, 255]`; at rate `±16384` the
frame construction fails (`rate_high = 256` exceeds a byte). -/
theorem C2_slew_frame :
    (∀ (rate : ℤ) (resp : List ℕ), -16383 ≤ rate → rate ≤ 16383 →
      slew_azm_variable rate resp =
        .ok ([80, 3, 16, (if 0 ≤ rate then 6 else 7),
          |rate| * 4 / 256, |rate| * 4 % 256, 0, 0], resp.length != 0) ∧
      slew_alt_variable rate resp =
        .ok ([80, 3, 17, (if 0 ≤ rate then 6 else 7),
          |rate| * 4 / 256, |rate| * 4 % 256, 0, 0], resp.length != 0) ∧
      (∀ b ∈ [(80:ℤ), 3, 16, (if 0 ≤ rate then 6 else 7),
          |rate| * 4 / 256, |rate| * 4 % 256, 0, 0], 0 ≤ b ∧ b ≤ 255) ∧
      (∀ b ∈ [(80:ℤ), 3, 17, (if 0 ≤ rate then 6 else 7),
          |rate| * 4 / 256, |rate| * 4 % 256, 0, 0], 0 ≤ b ∧ b ≤ 255)) ∧
    slew_azm_variable 16384 [] = .error .valueError ∧
    slew_alt_variable 16384 [] = .error .valueError ∧
    slew_azm_variable (-16384) [] = .error .valueError ∧
    slew_alt_variable (-16384) [] = .error .valueError := by
  refine ⟨?_, rfl, rfl, rfl, rfl⟩
  intro rate resp h1 h2
  exact ⟨slew_azm_variable_eq rate resp h1 h2,
    slew_alt_variable_eq rate resp h1 h2,
    slew_frame_fields_bounds 16 rate (by norm_num) (by norm_num) h1 h2,
    slew_frame_fields_bounds 17 rate (by norm_num) (by norm_num) h1 h2⟩

/-- Witness for C2 at the concrete rate `1000` with a non-empty response. -/
theorem C2_witness :
    (-16383 ≤ (1000 : ℤ) ∧ (1000 : ℤ) ≤ 16383) ∧
    slew_azm_variable 1000 [35] =
      .ok ([80, 3, 16, (if 0 ≤ (1000:ℤ) then 6 else 7),
        |(1000:ℤ)| * 4 / 256, |(1000:ℤ)| * 4 % 256, 0, 0],
        ([35] : List ℕ).length != 0) :=
  ⟨⟨by decide, by decide⟩, (C2_slew_frame.1 1000 [35] (by decide) (by decide)).1⟩

/-- Conversion factor between degrees and 16-bit revolution fractions,
`NexStarHandControl.CONVERSION = 2**16 / 360`. -/
def CONVERSION : ℚ := 2 ^ 16 / 360

/-- Conversion factor between degrees and 32-bit revolution fractions,
`NexStarHandControl.CONVERSION_PRECISE = 2**32 / 360`. -/
def CONVERSION_PRECISE : ℚ := 2 ^ 32 / 360

/-- Python's builtin `round` on an exact rational: round to the nearest
integer, ties to the even neighbour (banker's rounding). -/
def pyRound (q : ℚ) : ℤ :=
  if q - ⌊q⌋ < 1 / 2 then ⌊q⌋
  else if q - ⌊q⌋ = 1 / 2 then (if ⌊q⌋ % 2 = 0 then ⌊q⌋ else ⌊q⌋ + 1)
  else ⌊q⌋ + 1

theorem pyRound_intCast (n : ℤ) : pyRound ((n : ℚ)) = n := by
  have h : ((n : ℚ)) - ⌊((n : ℚ))⌋ < 1 / 2 := by
    rw [Int.floor_intCast]
    norm_num
  rw [pyRound, if_pos h, Int.floor_intCast]

theorem pyRound_close (q : ℚ) : |((pyRound q : ℤ) : ℚ) - q| ≤ 1 / 2 := by
  have h0 : ((⌊q⌋ : ℤ) : ℚ) ≤ q := Int.floor_le q
  have h1 : q < ⌊q⌋ + 1 := Int.lt_floor_add_one q
  rw [abs_le, pyRound]
  split
  · rename_i h
    constructor <;> push_cast <;> linarith
  · split
    · rename_i h h2
      split <;> constructor <;> push_cast at h2 ⊢ <;> linarith
    · rename_i h h2
      have h3 : 1 / 2 < q - ⌊q⌋ := lt_of_le_of_ne (not_lt.mp h) (Ne.symm h2)
      constructor <;> push_cast <;> linarith

theorem encode_decode_close (v c bound : ℚ) (hc : 0 < c) (hb : 1 / (2 * c) ≤ bound) :
    |((pyRound (v * c) : ℤ) : ℚ) / c - v| ≤ bound := by
  have h := pyRound_close (v * c)
  have e : ((pyRound (v * c) : ℤ) : ℚ) / c - v =
      (((pyRound (v * c) : ℤ) : ℚ) - v * c) / c := by
    field_simp
    ring
  rw [e, abs_div, abs_of_pos hc]
  calc |((pyRound (v * c) : ℤ) : ℚ) - v * c| / c ≤ (1 / 2) / c := by gcongr
    _ = 1 / (2 * c) := by ring
    _ ≤ bound := hb

/-- C4: encoding a degree value `v ∈ [0, 360)` as `round(v * 2^16/360)` and
decoding by dividing by `2^16/360` reproduces `v` within `360/2^16`; with the
precise factor `2^32/360` the round-trip error is within `360/2^32`. -/
theorem C4_round_trip (v : ℚ) (h0 : 0 ≤ v) (h1 : v < 360) :
    |((pyRound (v * CONVERSION) : ℤ) : ℚ) / CONVERSION - v| ≤ 360 / 2 ^ 16 ∧
    |((pyRound (v * CONVERSION_PRECISE) : ℤ) : ℚ) / CONVERSION_PRECISE - v| ≤
      360 / 2 ^ 32 := by
  constructor
  · exact encode_decode_close v CONVERSION _ (by norm_num [CONVERSION])
      (by norm_num [CONVERSION])
  · exact encode_decode_close v CONVERSION_PRECISE _
      (by norm_num [CONVERSION_PRECISE]) (by norm_num [CONVERSION_PRECISE])

/-- Witness for C4 at the concrete value `v = 90`. -/
theorem C4_witness :
    ((0:ℚ) ≤ 90 ∧ (90:ℚ) < 360) ∧
    (|((pyRound ((90:ℚ) * CONVERSION) : ℤ) : ℚ) / CONVERSION - 90| ≤ 360 / 2 ^ 16 ∧
     |((pyRound ((90:ℚ) * CONVERSION_PRECISE) : ℤ) : ℚ) / CONVERSION_PRECISE - 90| ≤
       360 / 2 ^ 32) :=
  ⟨⟨by decide, by decide⟩, C4_round_trip 90 (by decide) (by decide)⟩

/-- Lowercase ASCII hex digit for a value in `[0, 15]`, as used by Python's
`x` format code. -/
def hexDigitChar (n : ℕ) : ℕ := if n < 10 then 48 + n else 87 + n

/-- Hex digits (most significant first) of `n`, via repeated division by 16;
`fuel` bounds the recursion and is set to `n` itself, which is enough since
`n / 16 < n` for positive `n`. -/
def natToHexCore (fuel n : ℕ) : List ℕ :=
  match fuel with
  | 0 => []
  | fuel + 1 => if n = 0 then [] else natToHexCore fuel (n / 16) ++ [hexDigitChar (n % 16)]

def natToHexDigits (n : ℕ) : List ℕ := natToHexCore n n

/-- Zero padding to a minimum width, as Python's zero-filled format does. -/
def zfill (w : ℕ) (ds : List ℕ) : List ℕ := List.replicate (w - ds.length) 48 ++ ds

/-- ASCII bytes of Python's `f"{x:0{w}x}"`: lowercase hex, zero-padded to a
minimum width `w`; a negative value gets a leading `-` that counts toward
the width. -/
def formatHexW (w : ℕ) (x : ℤ) : List ℕ :=
  let ds := if x.natAbs = 0 then [48] else natToHexDigits x.natAbs
  if x < 0 then 45 :: zfill (w - 1) ds else zfill w ds

/-- Embedding of `NexStarHandControl.is_aligned`: queries `J`, expects one
byte back and compares it against `0x01`. -/
def is_aligned (resp : List ℕ) : Except Err Bool :=
  match resp with
  | [b] => .ok (b == 1)
  | _ => .error .malformedResponse

/-- Bytes of the goto command string built inside
`NexStarHandControl._handle_goto_command`: letter `R`/`B` chosen by target,
lowercased for precise mode, followed by the two rounded coordinates as 4- or
8-digit zero-padded lowercase hex, joined by `,` (ASCII 44). -/
def gotoCmdBytes (x y : ℚ) (is_precise is_ra_dec : Bool) : List ℕ :=
  let letter : ℕ := if is_ra_dec then 82 else 66
  if is_precise then
    (letter + 32) :: (formatHexW 8 (pyRound (x * CONVERSION_PRECISE)) ++
      [44] ++ formatHexW 8 (pyRound (y * CONVERSION_PRECISE)))
  else
    letter :: (formatHexW 4 (pyRound (x * CONVERSION)) ++
      [44] ++ formatHexW 4 (pyRound (y * CONVERSION)))

/-- Embedding of `NexStarHandControl._handle_goto_command`: first calls
`is_aligned` (which queries `J`, ASCII 74, and validates its 1-byte reply;
the result only selects a log warning), then sends the goto command.
`alignResp` and `cmdResp` are the device's stripped responses to the two
queries, in order. The result lists the byte frames sent over the transport
in order, plus the non-empty-response warning flag. -/
def handle_goto_command (x y : ℚ) (is_precise is_ra_dec : Bool)
    (alignResp cmdResp : List ℕ) : Except Err (List (List ℕ) × Bool) :=
  (is_aligned alignResp).bind fun _aligned =>
    .ok ([[74], gotoCmdBytes x y is_precise is_ra_dec], cmdResp.length != 0)

def goto_ra_dec (ra dec : ℚ) (alignResp cmdResp : List ℕ) :
    Except Err (List (List ℕ) × Bool) :=
  handle_goto_command ra dec false true alignResp cmdResp

def goto_ra_dec_precise (ra dec : ℚ) (alignResp cmdResp : List ℕ) :
    Except Err (List (List ℕ) × Bool) :=
  handle_goto_command ra dec true true alignResp cmdResp

def goto_azm_alt (azm alt : ℚ) (alignResp cmdResp : List ℕ) :
    Except Err (List (List ℕ) × Bool) :=
  handle_goto_command azm alt false false alignResp cmdResp

def goto_azm_alt_precise (azm alt : ℚ) (alignResp cmdResp : List ℕ) :
    Except Err (List (List ℕ) × Bool) :=
  handle_goto_command azm alt true false alignResp cmdResp

theorem pyRound_mul_conversion_90 : pyRound ((90:ℚ) * CONVERSION) = 16384 := by
  have h : (90:ℚ) * CONVERSION = ((16384 : ℤ) : ℚ) := by norm_num [CONVERSION]
  rw [h, pyRound_intCast]

theorem pyRound_mul_conversion_180 : pyRound ((180:ℚ) * CONVERSION) = 32768 := by
  have h : (180:ℚ) * CONVERSION = ((32768 : ℤ) : ℚ) := by norm_num [CONVERSION]
  rw [h, pyRound_intCast]

theorem pyRound_mul_precise_90 : pyRound ((90:ℚ) * CONVERSION_PRECISE) = 1073741824 := by
  have h : (90:ℚ) * CONVERSION_PRECISE = ((1073741824 : ℤ) : ℚ) := by
    norm_num [CONVERSION_PRECISE]
  rw [h, pyRound_intCast]

theorem pyRound_mul_precise_180 : pyRound ((180:ℚ) * CONVERSION_PRECISE) = 2147483648 := by
  have h : (180:ℚ) * CONVERSION_PRECISE = ((2147483648 : ℤ) : ℚ) := by
    norm_num [CONVERSION_PRECISE]
  rw [h, pyRound_intCast]

theorem gotoCmdBytes_90_180_coarse :
    gotoCmdBytes 90 180 false true = [82, 52, 48, 48, 48, 44, 56, 48, 48, 48] := by
  rw [gotoCmdBytes]
  simp only [Bool.false_eq_true, if_false, if_true, pyRound_mul_conversion_90,
    pyRound_mul_conversion_180]
  rfl

theorem gotoCmdBytes_90_180_precise :
    gotoCmdBytes 90 180 true true =
      [114, 52, 48, 48, 48, 48, 48, 48, 48, 44, 56, 48, 48, 48, 48, 48, 48, 48] := by
  rw [gotoCmdBytes]
  simp only [if_true, pyRound_mul_precise_90, pyRound_mul_precise_180]
  rfl

/-- C3 counterexample: `goto_ra_dec 90 180` does not send only the goto
request `R4000,8000` — the operation first sends the one-byte alignment
query `J` (ASCII 74), so the sent frames are `[J, R4000,8000]`, which differs
from `[R4000,8000]` alone. -/
theorem C3_counterexample :
    goto_ra_dec 90 180 [1] [] =
      .ok ([[74], [82, 52, 48, 48, 48, 44, 56, 48, 48, 48]], false) ∧
    ([[74], [82, 52, 48, 48, 48, 44, 56, 48, 48, 48]] : List (List ℕ)) ≠
      [[82, 52, 48, 48, 48, 44, 56, 48, 48, 48]] := by
  constructor
  · rw [goto_ra_dec, handle_goto_command, gotoCmdBytes_90_180_coarse]
    rfl
  · decide

/-- C3 (amended): `goto_ra_dec(90,180)` sends exactly `R4000,8000` as its
goto request and `goto_ra_dec_precise(90,180)` sends exactly
`r40000000,80000000`; each coordinate is rounded and formatted as 4 or 8
lowercase zero-padded hex digits joined by a comma. Besides the goto request,
the operation also sends the one-byte alignment query `J` first, and no
other bytes. -/
theorem C3_goto_bytes :
    (∀ (a : ℕ) (resp : List ℕ),
      goto_ra_dec 90 180 [a] resp =
        .ok ([[74], [82, 52, 48, 48, 48, 44, 56, 48, 48, 48]],
          resp.length != 0)) ∧
    (∀ (a : ℕ) (resp : List ℕ),
      goto_ra_dec_precise 90 180 [a] resp =
        .ok ([[74], [114, 52, 48, 48, 48, 48, 48, 48, 48, 44,
          56, 48, 48, 48, 48, 48, 48, 48]], resp.length != 0)) := by
  constructor
  · intro a resp
    rw [goto_ra_dec, handle_goto_command, gotoCmdBytes_90_180_coarse]
    rfl
  · intro a resp
    rw [goto_ra_dec_precise, handle_goto_command, gotoCmdBytes_90_180_precise]
    rfl

/-- C9: every goto operation first issues the alignment query `J` (ASCII 74)
and reads its 1-byte reply, then sends the goto frame: exactly two transport
queries in that order, whatever the alignment byte `a` is. -/
theorem C9_goto_alignment_first :
    ∀ (x y : ℚ) (a : ℕ) (resp : List ℕ),
      goto_ra_dec x y [a] resp =
        .ok ([[74], gotoCmdBytes x y false true], resp.length != 0) ∧
      goto_ra_dec_precise x y [a] resp =
        .ok ([[74], gotoCmdBytes x y true true], resp.length != 0) ∧
      goto_azm_alt x y [a] resp =
        .ok ([[74], gotoCmdBytes x y false false], resp.length != 0) ∧
      goto_azm_alt_precise x y [a] resp =
        .ok ([[74], gotoCmdBytes x y true false], resp.length != 0) := by
  intro x y a resp
  exact ⟨rfl, rfl, rfl, rfl⟩

/-- Value of a single ASCII hex digit (`0-9`, `a-f`, `A-F`), as accepted by
Python's `int(x, base=16)` for the device's responses. -/
def hexVal (c : ℕ) : Option ℕ :=
  if 48 ≤ c ∧ c ≤ 57 then some (c - 48)
  else if 97 ≤ c ∧ c ≤ 102 then some (c - 87)
  else if 65 ≤ c ∧ c ≤ 70 then some (c - 55)
  else none

def parseHexAux : List ℕ → ℕ → Option ℕ
  | [], acc => some acc
  | c :: cs, acc =>
    match hexVal c with
    | some d => parseHexAux cs (acc * 16 + d)
    | none => none

/-- Python's `int(x, base=16)` on a plain hex-digit byte string: fails
(`ValueError`) on an empty string or a non-hex byte. -/
def parseHex (l : List ℕ) : Option ℕ :=
  if l = [] then none else parseHexAux l 0

/-- Body of `NexStarHandControl._handle_position_response` after the length
check: `x, y = response.split(b",")` (exactly two parts, else `ValueError`),
each part parsed as hex and divided by the coarse/precise factor. -/
def positionBody (response : List ℕ) (is_precise : Bool) : Except Err (ℚ × ℚ) :=
  match response.splitOn 44 with
  | [xs, ys] =>
    match parseHex xs, parseHex ys with
    | some x, some y =>
      if is_precise then
        .ok (((x : ℚ)) / CONVERSION_PRECISE, ((y : ℚ)) / CONVERSION_PRECISE)
      else
        .ok (((x : ℚ)) / CONVERSION, ((y : ℚ)) / CONVERSION)
    | _, _ => .error .valueError
  | _ => .error .valueError

/-- Embedding of `NexStarHandControl._handle_position_response`: the length
of the response must be exactly 17 bytes (precise) or 9 bytes (coarse),
otherwise the `assert` fails (`MalformedResponse` in the spec's taxonomy). -/
def handle_position_response (response : List ℕ) (is_precise : Bool) :
    Except Err (ℚ × ℚ) :=
  if is_precise then
    if response.length = 17 then positionBody response true
    else .error .malformedResponse
  else
    if response.length = 9 then positionBody response false
    else .error .malformedResponse

inductive TrackingMode
  | off
  | alt_az
  | eq_north
  | eq_south
  deriving DecidableEq

/-- Python `TrackingMode(value)` enum lookup; an unknown code raises
`ValueError` (`InvalidEnumValue` in the spec's taxonomy). -/
def trackingModeOfNat (n : ℕ) : Option TrackingMode :=
  if n = 0 then some .off
  else if n = 1 then some .alt_az
  else if n = 2 then some .eq_north
  else if n = 3 then some .eq_south
  else none

/-- Embedding of `NexStarHandControl.get_tracking_mode` after the `t` query:
the response must be exactly 1 byte, then the byte is mapped through the
`TrackingMode` enum. -/
def get_tracking_mode (response : List ℕ) : Except Err TrackingMode :=
  match response with
  | [b] =>
    match trackingModeOfNat b with
    | some m => .ok m
    | none => .error .invalidEnumValue
  | _ => .error .malformedResponse

/-- C5: the position decoder fails with `MalformedResponse` on any response
whose length is not 9 (coarse) or 17 (precise), and the tracking-mode decoder
fails on any response that is not exactly 1 byte; a 1-byte `0x02` tracking
response decodes to `EQ_NORTH` while the 2-byte `[2, 2]` fails. -/
theorem C5_length_validation :
    (∀ resp : List ℕ, resp.length ≠ 9 →
      handle_position_response resp false = .error .malformedResponse) ∧
    (∀ resp : List ℕ, resp.length ≠ 17 →
      handle_position_response resp true = .error .malformedResponse) ∧
    (∀ resp : List ℕ, resp.length ≠ 1 →
      get_tracking_mode resp = .error .malformedResponse) ∧
    get_tracking_mode [2] = .ok .eq_north ∧
    get_tracking_mode [2, 2] = .error .malformedResponse := by
  refine ⟨?_, ?_, ?_, rfl, rfl⟩
  · intro resp h
    simp [handle_position_response, h]
  · intro resp h
    simp [handle_position_response, h]
  · intro resp h
    match resp with
    | [] => rfl
    | [b] => simp at h
    | a :: b :: t => rfl

/-- Witness for C5: an empty position response, an 8-byte coarse-length
response given to the precise decoder, and an empty tracking response. -/
theorem C5_witness :
    (([] : List ℕ).length ≠ 9 ∧
      handle_position_response [] false = .error .malformedResponse) ∧
    (([48, 48, 48, 48, 44, 48, 48, 48, 48] : List ℕ).length ≠ 17 ∧
      handle_position_response [48, 48, 48, 48, 44, 48, 48, 48, 48] true =
        .error .malformedResponse) ∧
    (([] : List ℕ).length ≠ 1 ∧
      get_tracking_mode [] = .error .malformedResponse) :=
  ⟨⟨by decide, C5_length_validation.1 [] (by decide)⟩,
   ⟨by decide, C5_length_validation.2.1 _ (by decide)⟩,
   ⟨by decide, C5_length_validation.2.2.1 [] (by decide)⟩⟩

inductive CardinalDirectionLatitude
  | north
  | south
  deriving DecidableEq

def CardinalDirectionLatitude.value : CardinalDirectionLatitude → ℤ
  | .north => 0
  | .south => 1

inductive CardinalDirectionLongitude
  | east
  | west
  deriving DecidableEq

def CardinalDirectionLongitude.value : CardinalDirectionLongitude → ℤ
  | .east => 0
  | .west => 1

/-- Python `CardinalDirectionLatitude(value)` enum lookup (NORTH=0, SOUTH=1);
an unknown code raises `ValueError` (`InvalidEnumValue`). -/
def cardinalLatOfNat (n : ℕ) : Option CardinalDirectionLatitude :=
  if n = 0 then some .north else if n = 1 then some .south else none

/-- Python `CardinalDirectionLongitude(value)` enum lookup (EAST=0, WEST=1). -/
def cardinalLonOfNat (n : ℕ) : Option CardinalDirectionLongitude :=
  if n = 0 then some .east else if n = 1 then some .west else none

structure LatitudeDMS where
  degrees : ℤ
  minutes : ℤ
  seconds : ℤ
  direction : CardinalDirectionLatitude
  deriving DecidableEq

structure LongitudeDMS where
  degrees : ℤ
  minutes : ℤ
  seconds : ℤ
  direction : CardinalDirectionLongitude
  deriving DecidableEq

/-- Embedding of `LatitudeDMS.__init__`: the three `assert` range checks
(degrees 0..90, minutes 0..59, seconds 0..59) fail with `OutOfRange`. -/
def mkLatitudeDMS (d m s : ℤ) (dir : CardinalDirectionLatitude) :
    Except Err LatitudeDMS :=
  if (0 ≤ d ∧ d ≤ 90) ∧ (0 ≤ m ∧ m ≤ 59) ∧ (0 ≤ s ∧ s ≤ 59) then
    .ok ⟨d, m, s, dir⟩
  else .error .outOfRange

/-- Embedding of `LongitudeDMS.__init__` (degrees 0..180). -/
def mkLongitudeDMS (d m s : ℤ) (dir : CardinalDirectionLongitude) :
    Except Err LongitudeDMS :=
  if (0 ≤ d ∧ d ≤ 180) ∧ (0 ≤ m ∧ m ≤ 59) ∧ (0 ≤ s ∧ s ≤ 59) then
    .ok ⟨d, m, s, dir⟩
  else .error .outOfRange

/-- Embedding of `NexStarHandControl.get_location` after the `w` query: the
response must be 8 bytes; the direction bytes are mapped through the cardinal
direction enums, and the numeric fields go through the validating `LatitudeDMS`
and `LongitudeDMS` constructors, in the source's evaluation order. -/
def get_location (resp : List ℕ) : Except Err (LatitudeDMS × LongitudeDMS) :=
  match resp with
  | [lat_deg, lat_min, lat_sec, lat_dir, lon_deg, lon_min, lon_sec, lon_dir] =>
    match cardinalLatOfNat lat_dir with
    | none => .error .invalidEnumValue
    | some dlat =>
      (mkLatitudeDMS lat_deg lat_min lat_sec dlat).bind fun lat =>
        match cardinalLonOfNat lon_dir with
        | none => .error .invalidEnumValue
        | some dlon =>
          (mkLongitudeDMS lon_deg lon_min lon_sec dlon).bind fun lon =>
            .ok (lat, lon)
  | _ => .error .malformedResponse

/-- C10: for every 8-byte location response whose direction bytes are valid
(0 or 1) but whose latitude degrees exceed 90, longitude degrees exceed 180,
or any minutes/seconds byte exceeds 59, `get_location` fails with
`OutOfRange` instead of returning a location. -/
theorem C10_location_range_validation :
    ∀ latd latm lats latdir lond lonm lons londir : ℕ,
      latdir ≤ 1 → londir ≤ 1 →
      (90 < latd ∨ 180 < lond ∨ 59 < latm ∨ 59 < lats ∨ 59 < lonm ∨ 59 < lons) →
      get_location [latd, latm, lats, latdir, lond, lonm, lons, londir] =
        .error .outOfRange := by
  intro latd latm lats latdir lond lonm lons londir hld hlo hbad
  have hcaselat : latdir = 0 ∨ latdir = 1 := by omega
  have hcaselon : londir = 0 ∨ londir = 1 := by omega
  have main : ∀ dlat dlon,
      (mkLatitudeDMS (latd : ℤ) (latm : ℤ) (lats : ℤ) dlat).bind (fun lat =>
        (mkLongitudeDMS (lond : ℤ) (lonm : ℤ) (lons : ℤ) dlon).bind fun lon =>
          Except.ok (lat, lon)) = .error .outOfRange := by
    intro dlat dlon
    by_cases hlat : latd ≤ 90 ∧ latm ≤ 59 ∧ lats ≤ 59
    · have hlon : ¬(lond ≤ 180 ∧ lonm ≤ 59 ∧ lons ≤ 59) := by omega
      simp [mkLatitudeDMS, mkLongitudeDMS, hlat.1, hlat.2.1, hlat.2.2, hlon,
        Except.bind]
    · simp [mkLatitudeDMS, hlat, Except.bind]
  rcases hcaselat with h | h <;> subst h <;> rcases hcaselon with h | h <;> subst h <;>
    simpa [get_location, cardinalLatOfNat, cardinalLonOfNat] using main _ _

/-- Witness for C10: valid directions, latitude degrees byte 91 (> 90). -/
theorem C10_witness :
    ((91 : ℕ) > 90) ∧
    get_location [91, 0, 0, 0, 10, 0, 0, 1] = .error .outOfRange :=
  ⟨by decide, C10_location_range_validation 91 0 0 0 10 0 0 1 (by decide)
    (by decide) (Or.inl (by decide))⟩

/-- Decoded fields of `NexStarHandControl.get_time`: the timestamp fields
passed to `datetime.datetime(...)` plus the UTC offset in hours passed to
`datetime.timezone`. -/
structure TimeRecord where
  year : ℤ
  month : ℤ
  day : ℤ
  hour : ℤ
  minute : ℤ
  second : ℤ
  offsetHours : ℤ
  deriving DecidableEq

/-- Embedding of `NexStarHandControl.get_time` after the `h` query: the
response must be 8 bytes `[hour, min, sec, month, day, year, zone, dst]`;
a zone byte above 24 is reinterpreted as `zone - 256`; the dst byte is only
logged, never used. Building the Python `datetime` value from the record is a
standard-library step outside this codec. -/
def get_time (resp : List ℕ) : Except Err TimeRecord :=
  match resp with
  | [hour, minute, second, month, day, year, zone, _dst] =>
    let zone_offset : ℤ := if (zone : ℤ) > 24 then (zone : ℤ) - 256 else (zone : ℤ)
    .ok ⟨(year : ℤ) + 2000, (month : ℤ), (day : ℤ), (hour : ℤ), (minute : ℤ),
      (second : ℤ), zone_offset⟩
  | _ => .error .malformedResponse

/-- C7: in an 8-byte time response a zone byte `z > 24` decodes to the UTC
offset `z - 256` hours and `z ≤ 24` to `z` hours; `0xEF = 239` gives `-17`;
the dst byte alters neither the offset nor any time field. -/
theorem C7_time_zone_decoding :
    (∀ h m s mo d y z dst : ℕ,
      get_time [h, m, s, mo, d, y, z, dst] =
        .ok ⟨(y : ℤ) + 2000, (mo : ℤ), (d : ℤ), (h : ℤ), (m : ℤ), (s : ℤ),
          if 24 < (z : ℤ) then (z : ℤ) - 256 else (z : ℤ)⟩) ∧
    (∀ h m s mo d y z dst dst2 : ℕ,
      get_time [h, m, s, mo, d, y, z, dst] = get_time [h, m, s, mo, d, y, z, dst2]) ∧
    (get_time [1, 2, 3, 4, 5, 6, 239, 1]).map TimeRecord.offsetHours = .ok (-17) ∧
    (get_time [1, 2, 3, 4, 5, 6, 14, 1]).map TimeRecord.offsetHours = .ok 14 := by
  refine ⟨?_, ?_, rfl, rfl⟩
  · intro h m s mo d y z dst
    rfl
  · intro h m s mo d y z dst dst2
    rfl

/-- Python's `int(x)` on an exact nonnegative rational: truncation toward
zero (`Int.tdiv` of numerator by denominator). -/
def pyInt (q : ℚ) : ℤ := Int.tdiv q.num q.den

theorem pyInt_eq_floor (q : ℚ) (h : 0 ≤ q) : pyInt q = ⌊q⌋ := by
  have hnum : 0 ≤ q.num := Rat.num_nonneg.mpr h
  rw [pyInt, Int.tdiv_eq_ediv hnum (by positivity), Rat.floor_def]

/-- Embedding of `to_dms` from `device.py`: works on `abs(value)` and
truncates degrees, minutes and seconds with Python `int(...)`. -/
def to_dms (value : ℚ) : ℤ × ℤ × ℤ :=
  let v := |value|
  let degrees := pyInt v
  let minutes := pyInt ((v - degrees) * 60)
  let seconds := pyInt ((v - degrees - minutes / 60) * 3600)
  (degrees, minutes, seconds)

theorem to_dms_eq_floor (x : ℚ) : to_dms x =
    (⌊|x|⌋, ⌊(|x| - ⌊|x|⌋) * 60⌋,
      ⌊(|x| - ⌊|x|⌋ - ((⌊(|x| - ⌊|x|⌋) * 60⌋ : ℤ) : ℚ) / 60) * 3600⌋) := by
  have hv : (0:ℚ) ≤ |x| := abs_nonneg x
  have hfr : ((⌊|x|⌋ : ℤ) : ℚ) ≤ |x| := Int.floor_le _
  have hd : pyInt |x| = ⌊|x|⌋ := pyInt_eq_floor _ hv
  have hm : pyInt ((|x| - ((⌊|x|⌋ : ℤ) : ℚ)) * 60) = ⌊(|x| - ⌊|x|⌋) * 60⌋ :=
    pyInt_eq_floor _ (by nlinarith)
  have hms : ((⌊(|x| - ⌊|x|⌋) * 60⌋ : ℤ) : ℚ) ≤ (|x| - ⌊|x|⌋) * 60 := Int.floor_le _
  have hs : pyInt ((|x| - ((⌊|x|⌋ : ℤ) : ℚ) -
      ((⌊(|x| - ⌊|x|⌋) * 60⌋ : ℤ) : ℚ) / 60) * 3600) =
      ⌊(|x| - ⌊|x|⌋ - ((⌊(|x| - ⌊|x|⌋) * 60⌋ : ℤ) : ℚ) / 60) * 3600⌋ :=
    pyInt_eq_floor _ (by nlinarith)
  simp only [to_dms, hd, hm, hs]

/-- C8: `to_dms` is sign-blind (`to_dms x = to_dms (-x)`), computes on
`v = |x|` the floor values `deg = ⌊v⌋`, `min = ⌊(v-deg)*60⌋`,
`sec = ⌊(v-deg-min/60)*3600⌋` (truncating, never rounding up), and
`to_dms (-45.9999) = (45, 59, 59)`, not `(46, 0, 0)`. -/
theorem C8_to_dms :
    (∀ x : ℚ, to_dms x = to_dms (-x)) ∧
    (∀ x : ℚ, to_dms x =
      (⌊|x|⌋, ⌊(|x| - ⌊|x|⌋) * 60⌋,
        ⌊(|x| - ⌊|x|⌋ - ((⌊(|x| - ⌊|x|⌋) * 60⌋ : ℤ) : ℚ) / 60) * 3600⌋)) ∧
    to_dms (-(459999 / 10000)) = (45, 59, 59) ∧
    to_dms (-(459999 / 10000)) ≠ (46, 0, 0) := by
  have habs : ∀ x : ℚ, to_dms x = to_dms (-x) := by
    intro x
    simp [to_dms, abs_neg]
  have hconc : to_dms (-(459999 / 10000)) = (45, 59, 59) := by
    rw [to_dms_eq_floor]
    have habs1 : |(-(459999 / 10000) : ℚ)| = 459999 / 10000 := by norm_num
    rw [habs1]
    have h1 : ⌊(459999 / 10000 : ℚ)⌋ = 45 := by norm_num
    rw [h1]
    have h2 : ⌊((459999 / 10000 : ℚ) - ((45 : ℤ) : ℚ)) * 60⌋ = 59 := by norm_num
    rw [h2]
    have h3 : ⌊((459999 / 10000 : ℚ) - ((45 : ℤ) : ℚ) - ((59 : ℤ) : ℚ) / 60) * 3600⌋ = 59 := by
      norm_num
    rw [h3]
  refine ⟨habs, to_dms_eq_floor, hconc, ?_⟩
  rw [hconc]
  decide

/-- Embedding of `NexStarHandControl.sync_ra_dec`: sends `S%04x,%04x` with the
coarse-rounded coordinates; a non-empty response is only logged. -/
def sync_ra_dec (ra dec : ℚ) (resp : List ℕ) : Except Err (List ℕ × Bool) :=
  .ok (83 :: (formatHexW 4 (pyRound (ra * CONVERSION)) ++ [44] ++
    formatHexW 4 (pyRound (dec * CONVERSION))), resp.length != 0)

/-- Embedding of `NexStarHandControl.sync_ra_dec_precise` (`s%08x,%08x`). -/
def sync_ra_dec_precise (ra dec : ℚ) (resp : List ℕ) : Except Err (List ℕ × Bool) :=
  .ok (115 :: (formatHexW 8 (pyRound (ra * CONVERSION_PRECISE)) ++ [44] ++
    formatHexW 8 (pyRound (dec * CONVERSION_PRECISE))), resp.length != 0)

/-- Embedding of `NexStarHandControl.slew_azm_fixed`: rate in `[-9, 9]`,
direction 36/37, frame `[0x50, 2, 16, direction, |rate|, 0, 0, 0]`. -/
def slew_azm_fixed (rate : ℤ) (resp : List ℕ) : Except Err (List ℤ × Bool) :=
  if -9 ≤ rate ∧ rate ≤ 9 then
    (mkBytes [80, 2, 16, (if rate < 0 then 37 else 36),
      (if rate < 0 then (rate.natAbs : ℤ) else rate), 0, 0, 0]).bind fun cmd =>
      .ok (cmd, resp.length != 0)
  else .error .outOfRange

/-- Embedding of `NexStarHandControl.slew_alt_fixed` (axis id 17). -/
def slew_alt_fixed (rate : ℤ) (resp : List ℕ) : Except Err (List ℤ × Bool) :=
  if -9 ≤ rate ∧ rate ≤ 9 then
    (mkBytes [80, 2, 17, (if rate < 0 then 37 else 36),
      (if rate < 0 then (rate.natAbs : ℤ) else rate), 0, 0, 0]).bind fun cmd =>
      .ok (cmd, resp.length != 0)
  else .error .outOfRange

/-- Embedding of `NexStarHandControl.set_location`: 9-byte frame
`[ord("W"), lat fields, lat dir, lng fields, lng dir]`. -/
def set_location (lat : LatitudeDMS) (lng : LongitudeDMS) (resp : List ℕ) :
    Except Err (List ℤ × Bool) :=
  (mkBytes [87, lat.degrees, lat.minutes, lat.seconds, lat.direction.value,
    lng.degrees, lng.minutes, lng.seconds, lng.direction.value]).bind fun cmd =>
    .ok (cmd, resp.length != 0)

/-- Embedding of `NexStarHandControl.set_time`: frame
`[ord("H"), hour, minute, second, month, day, year-2000, zone, dst]` where a
negative hour offset is encoded as `offset + 256` and the dst flag is 1 when
the timestamp's DST delta is non-zero. -/
def set_time (hour minute second month day year offsetHours : ℤ) (dstFlag : Bool)
    (resp : List ℕ) : Except Err (List ℤ × Bool) :=
  (mkBytes [72, hour, minute, second, month, day, year - 2000,
    (if offsetHours < 0 then offsetHours + 256 else offsetHours),
    (if dstFlag then 1 else 0)]).bind fun cmd =>
    .ok (cmd, resp.length != 0)

def TrackingMode.value : TrackingMode → ℤ
  | .off => 0
  | .alt_az => 1
  | .eq_north => 2
  | .eq_south => 3

/-- Embedding of `NexStarHandControl.set_tracking_mode`:
`bytes([84, mode.value])`. -/
def set_tracking_mode (mode : TrackingMode) (resp : List ℕ) :
    Except Err (List ℤ × Bool) :=
  (mkBytes [84, mode.value]).bind fun cmd => .ok (cmd, resp.length != 0)

/-- Embedding of `NexStarHandControl.cancel_goto`: sends the literal `M`. -/
def cancel_goto (resp : List ℕ) : Except Err (List ℕ × Bool) :=
  .ok ([77], resp.length != 0)

theorem slew_azm_fixed_ok (rate : ℤ) (resp : List ℕ)
    (h1 : -9 ≤ rate) (h2 : rate ≤ 9) :
    slew_azm_fixed rate resp =
      .ok ([80, 2, 16, (if rate < 0 then 37 else 36),
        (if rate < 0 then (rate.natAbs : ℤ) else rate), 0, 0, 0],
        resp.length != 0) := by
  rw [slew_azm_fixed, if_pos ⟨h1, h2⟩, mkBytes_ok _ ?_]
  · rfl
  · intro b hb
    fin_cases hb <;> first
      | (constructor <;> omega)
      | (split <;> constructor <;> omega)

theorem slew_alt_fixed_ok (rate : ℤ) (resp : List ℕ)
    (h1 : -9 ≤ rate) (h2 : rate ≤ 9) :
    slew_alt_fixed rate resp =
      .ok ([80, 2, 17, (if rate < 0 then 37 else 36),
        (if rate < 0 then (rate.natAbs : ℤ) else rate), 0, 0, 0],
        resp.length != 0) := by
  rw [slew_alt_fixed, if_pos ⟨h1, h2⟩, mkBytes_ok _ ?_]
  · rfl
  · intro b hb
    fin_cases hb <;> first
      | (constructor <;> omega)
      | (split <;> constructor <;> omega)

theorem set_location_ok (lat : LatitudeDMS) (lng : LongitudeDMS) (resp : List ℕ)
    (hla : 0 ≤ lat.degrees ∧ lat.degrees ≤ 90)
    (hlb : 0 ≤ lat.minutes ∧ lat.minutes ≤ 59)
    (hlc : 0 ≤ lat.seconds ∧ lat.seconds ≤ 59)
    (hga : 0 ≤ lng.degrees ∧ lng.degrees ≤ 180)
    (hgb : 0 ≤ lng.minutes ∧ lng.minutes ≤ 59)
    (hgc : 0 ≤ lng.seconds ∧ lng.seconds ≤ 59) :
    set_location lat lng resp =
      .ok ([87, lat.degrees, lat.minutes, lat.seconds, lat.direction.value,
        lng.degrees, lng.minutes, lng.seconds, lng.direction.value],
        resp.length != 0) := by
  have hd1 : 0 ≤ lat.direction.value ∧ lat.direction.value ≤ 1 := by
    cases lat.direction <;> constructor <;> norm_num [CardinalDirectionLatitude.value]
  have hd2 : 0 ≤ lng.direction.value ∧ lng.direction.value ≤ 1 := by
    cases lng.direction <;> constructor <;> norm_num [CardinalDirectionLongitude.value]
  rw [set_location, mkBytes_ok _ ?_]
  · rfl
  · intro b hb
    fin_cases hb <;> constructor <;> omega

theorem set_time_ok (hour minute second month day year offsetHours : ℤ)
    (dstFlag : Bool) (resp : List ℕ)
    (hh : 0 ≤ hour ∧ hour ≤ 23) (hmi : 0 ≤ minute ∧ minute ≤ 59)
    (hs : 0 ≤ second ∧ second ≤ 59) (hmo : 1 ≤ month ∧ month ≤ 12)
    (hd : 1 ≤ day ∧ day ≤ 31) (hy : 2000 ≤ year ∧ year ≤ 2255)
    (ho : -23 ≤ offsetHours ∧ offsetHours ≤ 23) :
    set_time hour minute second month day year offsetHours dstFlag resp =
      .ok ([72, hour, minute, second, month, day, year - 2000,
        (if offsetHours < 0 then offsetHours + 256 else offsetHours),
        (if dstFlag then 1 else 0)], resp.length != 0) := by
  rw [set_time, mkBytes_ok _ ?_]
  · rfl
  · intro b hb
    fin_cases hb <;> first
      | (constructor <;> omega)
      | (cases dstFlag <;> simp <;> omega)

theorem set_tracking_mode_ok (mode : TrackingMode) (resp : List ℕ) :
    set_tracking_mode mode resp =
      .ok ([84, mode.value], resp.length != 0) := by
  rw [set_tracking_mode, mkBytes_ok _ ?_]
  · rfl
  · intro b hb
    fin_cases hb <;> cases mode <;> constructor <;>
      norm_num [TrackingMode.value]

/-- C6: every acknowledgement-only operation — goto (all four variants via
`_handle_goto_command`), sync, variable and fixed slew, set-location,
set-time, set-tracking-mode, cancel-goto — succeeds on every response from
the transport; the response only drives the warning flag, which is set
exactly when the response is non-empty. -/
theorem C6_ack_ops_never_fail :
    (∀ (x y : ℚ) (p r : Bool) (a : ℕ) (resp : List ℕ),
      ∃ s, handle_goto_command x y p r [a] resp = .ok (s, resp.length != 0)) ∧
    (∀ (ra dec : ℚ) (resp : List ℕ),
      ∃ s, sync_ra_dec ra dec resp = .ok (s, resp.length != 0)) ∧
    (∀ (ra dec : ℚ) (resp : List ℕ),
      ∃ s, sync_ra_dec_precise ra dec resp = .ok (s, resp.length != 0)) ∧
    (∀ (rate : ℤ) (resp : List ℕ), -16383 ≤ rate → rate ≤ 16383 →
      (∃ s, slew_azm_variable rate resp = .ok (s, resp.length != 0)) ∧
      (∃ s, slew_alt_variable rate resp = .ok (s, resp.length != 0))) ∧
    (∀ (rate : ℤ) (resp : List ℕ), -9 ≤ rate → rate ≤ 9 →
      (∃ s, slew_azm_fixed rate resp = .ok (s, resp.length != 0)) ∧
      (∃ s, slew_alt_fixed rate resp = .ok (s, resp.length != 0))) ∧
    (∀ (lat : LatitudeDMS) (lng : LongitudeDMS) (resp : List ℕ),
      0 ≤ lat.degrees → lat.degrees ≤ 90 → 0 ≤ lat.minutes → lat.minutes ≤ 59 →
      0 ≤ lat.seconds → lat.seconds ≤ 59 →
      0 ≤ lng.degrees → lng.degrees ≤ 180 → 0 ≤ lng.minutes → lng.minutes ≤ 59 →
      0 ≤ lng.seconds → lng.seconds ≤ 59 →
      ∃ s, set_location lat lng resp = .ok (s, resp.length != 0)) ∧
    (∀ (hour minute second month day year offsetHours : ℤ) (dstFlag : Bool)
        (resp : List ℕ),
      0 ≤ hour → hour ≤ 23 → 0 ≤ minute → minute ≤ 59 → 0 ≤ second → second ≤ 59 →
      1 ≤ month → month ≤ 12 → 1 ≤ day → day ≤ 31 → 2000 ≤ year → year ≤ 2255 →
      -23 ≤ offsetHours → offsetHours ≤ 23 →
      ∃ s, set_time hour minute second month day year offsetHours dstFlag resp =
        .ok (s, resp.length != 0)) ∧
    (∀ (mode : TrackingMode) (resp : List ℕ),
      ∃ s, set_tracking_mode mode resp = .ok (s, resp.length != 0)) ∧
    (∀ resp : List ℕ, ∃ s, cancel_goto resp = .ok (s, resp.length != 0)) := by
  refine ⟨?_, ?_, ?_, ?_, ?_, ?_, ?_, ?_, ?_⟩
  · intro x y p r a resp
    exact ⟨_, rfl⟩
  · intro ra dec resp
    exact ⟨_, rfl⟩
  · intro ra dec resp
    exact ⟨_, rfl⟩
  · intro rate resp h1 h2
    exact ⟨⟨_, slew_azm_variable_eq rate resp h1 h2⟩,
      ⟨_, slew_alt_variable_eq rate resp h1 h2⟩⟩
  · intro rate resp h1 h2
    exact ⟨⟨_, slew_azm_fixed_ok rate resp h1 h2⟩,
      ⟨_, slew_alt_fixed_ok rate resp h1 h2⟩⟩
  · intro lat lng resp h1 h2 h3 h4 h5 h6 h7 h8 h9 h10 h11 h12
    exact ⟨_, set_location_ok lat lng resp ⟨h1, h2⟩ ⟨h3, h4⟩ ⟨h5, h6⟩
      ⟨h7, h8⟩ ⟨h9, h10⟩ ⟨h11, h12⟩⟩
  · intro hour minute second month day year offsetHours dstFlag resp
      h1 h2 h3 h4 h5 h6 h7 h8 h9 h10 h11 h12 h13 h14
    exact ⟨_, set_time_ok hour minute second month day year offsetHours dstFlag
      resp ⟨h1, h2⟩ ⟨h3, h4⟩ ⟨h5, h6⟩ ⟨h7, h8⟩ ⟨h9, h10⟩ ⟨h11, h12⟩ ⟨h13, h14⟩⟩
  · intro mode resp
    exact ⟨_, set_tracking_mode_ok mode resp⟩
  · intro resp
    exact ⟨_, rfl⟩

/-- Witness for C6: `set_time` for 2024-06-01 13:30:00 UTC-7 with DST, and
`cancel_goto`, each with the non-empty response `[88]`, both succeed with the
warning flag set. -/
theorem C6_witness :
    ((0:ℤ) ≤ 13 ∧ (13:ℤ) ≤ 23 ∧ (2000:ℤ) ≤ 2024 ∧ (2024:ℤ) ≤ 2255 ∧
      (-23:ℤ) ≤ -7 ∧ (-7:ℤ) ≤ 23) ∧
    (∃ s, set_time 13 30 0 6 1 2024 (-7) true [88] =
      .ok (s, ([88] : List ℕ).length != 0)) ∧
    (∃ s, cancel_goto [88] = .ok (s, ([88] : List ℕ).length != 0)) :=
  ⟨⟨by decide, by decide, by decide, by decide, by decide, by decide⟩,
   C6_ack_ops_never_fail.2.2.2.2.2.2.1 13 30 0 6 1 2024 (-7) true [88]
     (by decide) (by decide) (by decide) (by decide) (by decide) (by decide)
     (by decide) (by decide) (by decide) (by decide) (by decide) (by decide)
     (by decide) (by decide),
   C6_ack_ops_never_fail.2.2.2.2.2.2.2.2 [88]⟩
